import Mathlib

/-
Verification development for the Stock-Backtester repository (src/app.py).

The file shallowly embeds the pieces of `app.py` that the specification
talks about:

  * `clean_generated_code` (lines 29-48)  -> `cleanL` / `cleanS`
  * the error classifier   (lines 275-287) -> `classify`
  * the result validator   (lines 230-254) -> `validateTriple` / `fixSignal`
  * the fallback strategy  (lines 294-311) -> `fallbackSignals`
  * the retry loop of `auto_backtest` (lines 169-340) -> `loopAux` / `autoBacktest`

Python strings are modelled as Lean `String` (lists of characters);
pandas DataFrames are modelled as a structure carrying a row-label list,
a column-label list and a cell-valuation function; the external world
(the LLM, `exec`, `yf.download`, `vbt.Portfolio.from_signals`) is an
explicit oracle record, so theorems quantify over every possible
behaviour of those collaborators.
-/

/-- A single apostrophe character, used to build the message literals of
`app.py` without writing a quote character inside a string literal. -/
def apos : String := ⟨[Char.ofNat 39]⟩

/-- Model of the Python substring test `needle in hay`. -/
def pyIn (needle hay : String) : Bool :=
  decide (needle.data <:+: hay.data)

/- ------------------------------------------------------------------
Code sanitizer, app.py lines 29-48 (`clean_generated_code`).
------------------------------------------------------------------ -/

/-- Model of Python `str.split(sep)` for a single-character separator.
`splitCh c l` always returns a nonempty list of chunks. -/
def splitCh (c : Char) : List Char → List (List Char)
  | [] => [[]]
  | x :: xs =>
    match splitCh c xs with
    | [] => [[]]
    | h :: t => if x = c then [] :: h :: t else (x :: h) :: t

/-- Model of Python `sep.join(chunks)` for a single-character separator. -/
def joinCh (c : Char) : List (List Char) → List Char
  | [] => []
  | [l] => l
  | l :: ls => l ++ c :: joinCh c ls

/-- Model of Python `str.strip()`: drop leading and trailing whitespace. -/
def stripL (l : List Char) : List Char :=
  ((l.dropWhile Char.isWhitespace).reverse.dropWhile Char.isWhitespace).reverse

/-- The explanation markers of app.py line 44. -/
def explanationMarkers : List (List Char) :=
  ["this code".data, "the above".data, "explanation:".data, "note:".data]

/-- Model of `any(phrase in line.lower() for phrase in [...])` (line 44). -/
def markerHit (line : List Char) : Bool :=
  explanationMarkers.any (fun m => decide (m <:+: line.map Char.toLower))

/-- The three-backtick markdown fence marker. -/
def pyFence : List Char := "```".data

/-- The python-tagged opening fence marker. -/
def pyFencePython : List Char := "```python".data

/-- Model of `clean_generated_code` (app.py lines 29-48) on character lists:
strip a leading markdown fence, strip a trailing fence, keep lines up to the
first explanation marker, rejoin and trim whitespace. -/
def cleanL (l : List Char) : List Char :=
  let l1 := if pyFencePython.isPrefixOf l then l.drop 9 else l
  let l2 := if pyFence.isPrefixOf l1 then l1.drop 3 else l1
  let l3 := if pyFence.isSuffixOf l2 then l2.take (l2.length - 3) else l2
  stripL (joinCh '\n' ((splitCh '\n' l3).takeWhile (fun line => !markerHit line)))

/-- `clean_generated_code` on Lean strings. -/
def cleanS (s : String) : String := ⟨cleanL s.data⟩

/- ------------------------------------------------------------------
DataFrame model, reindexing and the result validator
(app.py lines 230-254) and the fallback signal tables (lines 296-303).
------------------------------------------------------------------ -/

/-- A pandas DataFrame, modelled by its row-label list, its column-label
list, and a valuation of cells by labels.  Cell values are booleans: the
loop logic of `auto_backtest` never reads a numeric cell of `close`, it
only inspects labels and shapes, so one cell type suffices for all three
tables. -/
structure DF where
  index : List String
  columns : List String
  data : String → String → Bool

/-- Model of pandas `.shape`: (number of rows, number of columns). -/
def shape (d : DF) : Nat × Nat := (d.index.length, d.columns.length)

/-- Model of `t.reindex(index=idx, columns=cols, fill_value=fill)`:
a cell keeps its value when its row and column labels both occur in the
original table, and is `fill` otherwise. -/
def reindexDF (d : DF) (idx cols : List String) (fill : Bool) : DF :=
  ⟨idx, cols, fun r c => if r ∈ d.index ∧ c ∈ d.columns then d.data r c else fill⟩

/-- Model of app.py lines 248-254: a signal table whose shape differs from
the shape of `close` is reindexed onto the index and columns of `close`
with false fill; a table whose shape already matches is left untouched. -/
def fixSignal (close t : DF) : DF :=
  if shape t ≠ shape close then reindexDF t close.index close.columns false else t

/-- Number of true cells of a signal table (cells are counted positionally,
one per (row label, column label) occurrence). -/
def trueCellCount (d : DF) : Nat :=
  (d.index.map (fun r => (d.columns.filter (fun c => d.data r c)).length)).sum

/-- The `entries` table built by the fallback strategy code of app.py
lines 299 and 302: all false on the index and columns of `close`, then
`entries.iloc[10] = True` sets every cell of the row at position 10
(one cell per column). -/
def fallbackEntriesDF (close : DF) : DF :=
  ⟨close.index, close.columns, fun r _ => decide (close.index[10]? = some r)⟩

/-- The `exits` table built by the fallback strategy code of app.py line
300: all false on the index and columns of `close`. -/
def fallbackExitsDF (close : DF) : DF :=
  ⟨close.index, close.columns, fun _ _ => false⟩

/-- Model of the fallback strategy code string of app.py lines 296-303.
When the table has fewer than 11 rows `entries.iloc[10]` raises an
IndexError, modelled by `none`. -/
def fallbackSignals (close : DF) : Option (DF × DF) :=
  if 10 < close.index.length then
    some (fallbackEntriesDF close, fallbackExitsDF close)
  else none

/-- A value bound in the `exec` namespace: either a DataFrame or anything
else (what `isinstance(x, pd.DataFrame)` distinguishes). -/
inductive Value where
  | vdf (d : DF)
  | vother

/-- The local binding environment handed to `exec` (the Python dict
`env`); later bindings shadow earlier ones, like dict assignment. -/
def Env : Type := List (String × Value)

/-- Message of app.py line 232. -/
def missingVarsMsg : String :=
  "Generated code must define " ++ apos ++ "close" ++ apos ++ ", " ++ apos ++
  "entries" ++ apos ++ ", and " ++ apos ++ "exits" ++ apos ++ " variables"

/-- Message of app.py line 241. -/
def closeTypeMsg : String := apos ++ "close" ++ apos ++ " must be a pandas DataFrame"

/-- Message of app.py line 243. -/
def entriesTypeMsg : String := apos ++ "entries" ++ apos ++ " must be a pandas DataFrame"

/-- Message of app.py line 245. -/
def exitsTypeMsg : String := apos ++ "exits" ++ apos ++ " must be a pandas DataFrame"

/-- Model of the validation block of `auto_backtest` (app.py lines
230-254): required-name check, DataFrame type checks in source order,
then automatic shape repair of `entries` and `exits`. -/
def validateTriple (env : Env) : Except String (DF × DF × DF) :=
  match List.lookup "close" env, List.lookup "entries" env, List.lookup "exits" env with
  | some vc, some ve, some vx =>
    match vc with
    | .vother => .error closeTypeMsg
    | .vdf c =>
      match ve with
      | .vother => .error entriesTypeMsg
      | .vdf e =>
        match vx with
        | .vother => .error exitsTypeMsg
        | .vdf x => .ok (c, fixSignal c e, fixSignal c x)
  | _, _, _ => .error missingVarsMsg

/- ------------------------------------------------------------------
Error classifier, app.py lines 275-287.
------------------------------------------------------------------ -/

/-- The classifier pattern of app.py line 278 (doesn-t match, with an apostrophe). -/
def doesntMatchPat : String := "doesn" ++ apos ++ "t match"

/-- The hint-augmented message of app.py line 279. -/
def shapeMismatchMsg (e : String) : String :=
  "Shape mismatch error: " ++ e ++
  "\nEnsure entries and exits have same shape as close by adding:\nentries = entries.reindex(index=close.index, columns=close.columns, fill_value=False)\nexits = exits.reindex(index=close.index, columns=close.columns, fill_value=False)"

/-- The hint-augmented message of app.py line 281. -/
def indexingErrMsg (e : String) : String :=
  "Indexing error: " ++ e ++
  "\nAvoid using .loc[] with boolean series directly. Use .multiply() method instead for applying conditions across DataFrame."

/-- The hint-augmented message of app.py line 283. -/
def dataErrMsg (e : String) : String :=
  "Invalid ticker symbol: " ++ e ++ "\nUse " ++ apos ++ "^CRSLDX" ++ apos ++
  " for Nifty 500 index data, not other symbols."

/-- The hint-augmented message of app.py line 285. -/
def syntaxErrMsg (e : String) : String :=
  "Python syntax error: " ++ e ++
  "\nCheck for invalid method calls on literals (e.g., use (100).div() not 100.div()) or use standard operators like / instead of .div()"

/-- Model of the error classifier of `auto_backtest` (app.py lines
275-287): a prioritized chain of substring tests over the fault message,
first match wins, with a raw pass-through catch-all. -/
def classify (e : String) : String :=
  if pyIn "shape" e && pyIn doesntMatchPat e then shapeMismatchMsg e
  else if pyIn "KeyError" e && pyIn "None of" e then indexingErrMsg e
  else if pyIn "YFPricesMissingError" e || pyIn "No data found" e then dataErrMsg e
  else if pyIn "SyntaxError" e then syntaxErrMsg e
  else "Error: " ++ e

/- ------------------------------------------------------------------
Prompt building (app.py lines 64-167 and 194-210) and the retry loop
of `auto_backtest` (lines 169-340).
------------------------------------------------------------------ -/

/-- Abridged model of the prompt f-string literal of app.py lines 65-167.
The long constant instruction text between the first line and the user
strategy is inert data that no claim touches, so it is shortened here;
only the dependence on `user_prompt` is kept. -/
def base_prompt (user_prompt : String) : String :=
  "You are a Python expert. Generate ONLY executable code for stock backtesting." ++
  "\nUSER STRATEGY: \"" ++ user_prompt ++
  "\"\nGenerate ONLY the code (no explanations, no markdown):"

/-- Model of lines 196-209: the first attempt sends the base prompt; a
retry appends the previous code verbatim and the classified error of the
previous attempt. -/
def promptFor (user_prompt : String) (code_str : Option String)
    (last_error : String) (attempt : Nat) : String :=
  match code_str with
  | none => base_prompt user_prompt
  | some cs =>
    base_prompt user_prompt ++ "\n# Previous code:\n" ++ cs ++
    "\n# Error on attempt " ++ toString (attempt - 1) ++ ":\n" ++ last_error ++
    "\n# Please correct and output only corrected code."

/-- The RuntimeError message of app.py lines 335-338. -/
def exhaustedMsg (max_retries : Nat) (last_error : String) : String :=
  "Failed to generate valid code after " ++ toString max_retries ++
  " attempts.\nLast error:\n" ++ last_error

/-- Model of lines 172-173: upper-case the CSV symbols, drop duplicates
keeping first occurrences, and suffix each symbol with `.NS` unless it
already ends in it. -/
def normalizeTickers (csvSymbols : List String) : List String :=
  ((csvSymbols.map String.toUpper).eraseDups).map
    (fun sym => if sym.endsWith ".NS" then sym else sym ++ ".NS")

/-- The external collaborators of `auto_backtest`, as an oracle record:
`csvSymbols` is the content of the ticker CSV, `download` is
`yf.download`, `genCode` is the chat completion (indexed by how many
generation calls happened before, and given the prompt), `execRes` is
`exec` of generated code on the binding environment (returning the
mutated environment and an optional raised fault message), `fallbackExec`
is `exec` of the fixed fallback code string, and `fromSignals` is
`vbt.Portfolio.from_signals` (portfolios are opaque, modelled as `Nat`). -/
structure Oracle where
  csvSymbols : List String
  download : List String → String → String → Value
  genCode : Nat → String → String
  execRes : String → Env → Env × Option String
  fallbackExec : Env → Env × Option String
  fromSignals : DF → DF → DF → Except String Nat

/-- One attempt body (the `try` block of app.py lines 227-273): run the
generated code on the shared environment, validate the resulting
bindings, and call the simulation.  Returns the post-exec environment
together with either a portfolio or the raised fault message. -/
def runAttempt (O : Oracle) (env : Env) (code : String) : Env × Except String Nat :=
  let r := O.execRes code env
  match r.2 with
  | some f => (r.1, .error f)
  | none =>
    match validateTriple r.1 with
    | .error m => (r.1, .error m)
    | .ok (c, e, x) => (r.1, O.fromSignals c e x)

/-- The fallback path of app.py lines 294-332: execute the fixed fallback
code on the (shared) environment, check that the three variables are
bound, and run the simulation; any fault anywhere makes the path fail.
Bindings that are present but not DataFrames make the Python code raise
at `close.shape`, which the outer handler also catches, so they are
folded into the failure case. -/
def fallbackPath (O : Oracle) (env : Env) : Except String Nat :=
  let r := O.fallbackExec env
  match r.2 with
  | some f => .error f
  | none =>
    match List.lookup "close" r.1, List.lookup "entries" r.1, List.lookup "exits" r.1 with
    | some (.vdf c), some (.vdf e), some (.vdf x) => O.fromSignals c e x
    | _, _, _ => .error "fallback variables missing or not DataFrames"

/-- Terminal result of `auto_backtest`: a returned portfolio, the
`return None` after an empty loop (line 340), or a raised error. -/
inductive Outcome where
  | pf (p : Nat)
  | retNone
  | raised (msg : String)
  deriving DecidableEq

/-- Observable summary of one run: its outcome, how many generation
(chat completion) calls it made, and whether the fallback path ran. -/
structure RunResult where
  outcome : Outcome
  genCalls : Nat
  fallbackRan : Bool
  deriving DecidableEq

/-- The retry loop of app.py lines 194-338, by recursion on the number of
remaining iterations.  Invoked from `autoBacktest` with
`remaining = max_retries`, so the iteration with `remaining = r + 1`
is Python attempt `max_retries - r`, and `remaining = 1` is the final
attempt (the `attempt == max_retries` branch of line 291).  Each
iteration makes exactly one generation call; on a fault the classified
error and the code text are carried into the next iteration together
with the mutated environment, and only the final iteration may enter the
fallback path, after which it raises the exhausted-retries error built
from the classified error of the final generated attempt. -/
def loopAux (O : Oracle) (user_prompt : String) (max_retries : Nat) :
    Nat → Option String → String → Env → Nat → RunResult
  | 0, _, _, _, calls => ⟨.retNone, calls, false⟩
  | r + 1, code_str, last_error, env, calls =>
    let attempt := max_retries - r
    let prompt := promptFor user_prompt code_str last_error attempt
    let code := cleanS (O.genCode calls prompt)
    let res := runAttempt O env code
    match res.2 with
    | .ok p => ⟨.pf p, calls + 1, false⟩
    | .error e =>
      let le := classify e
      if r = 0 then
        match fallbackPath O res.1 with
        | .ok p => ⟨.pf p, calls + 1, true⟩
        | .error _ => ⟨.raised (exhaustedMsg max_retries le), calls + 1, true⟩
      else loopAux O user_prompt max_retries r (some code) le res.1 (calls + 1)

/-- Model of `auto_backtest` (app.py lines 50-340).  The `tickers`
parameter is rebound from the CSV symbol list before any use (lines
170-173); the environment is created once (line 184) with the single
binding `raw` and then shared by every attempt.  The numeric parameters
`total_cash` and `size` are forwarded unchanged to the opaque simulation
call and are omitted here. -/
def autoBacktest (O : Oracle) (user_prompt : String) (tickers : List String)
    (period interval : String) (max_retries : Nat) : RunResult :=
  let tickers := normalizeTickers O.csvSymbols
  let raw := O.download tickers period interval
  let env : Env := [("raw", raw)]
  loopAux O user_prompt max_retries max_retries none "" env 0

/- ------------------------------------------------------------------
The exec namespace (app.py lines 184-192 and 228).
------------------------------------------------------------------ -/

/-- The keys of `preloaded_globals` (app.py lines 185-192): the full
Python builtins plus the pandas, yfinance, vectorbt and numpy modules. -/
def preloaded_globals_names : List String :=
  ["__builtins__", "pd", "yf", "vbt", "np"]

/-- The keys of the initial locals dict `env` (app.py line 184). -/
def exec_env_init_names : List String := ["raw"]

/-- Every name visible to generated code at the start of the first
`exec` call: globals plus locals. -/
def exec_namespace_names : List String :=
  preloaded_globals_names ++ exec_env_init_names

/-- Modelled from the spec (claim C6 and spec section 4.3): the declared
allow-list is the raw price table plus the numeric-table, data-fetch and
backtest-simulation library bindings, and nothing else. -/
def declared_allow_list : List String := ["raw", "pd", "np", "yf", "vbt"]

/- ------------------------------------------------------------------
Concrete fixtures used by witnesses and counterexamples.
------------------------------------------------------------------ -/

/-- A trivial oracle on which every attempt and the fallback fail. -/
def Ofail : Oracle where
  csvSymbols := []
  download := fun _ _ _ => .vother
  genCode := fun _ _ => ""
  execRes := fun _ env => (env, some "boom")
  fallbackExec := fun env => (env, some "fallback broke")
  fromSignals := fun _ _ _ => .error "sim"

/-- A 1 x 1 all-true signal table. -/
def d1 : DF := ⟨["i"], ["c"], fun _ _ => true⟩

/-- A 1 x 1 all-false signal table. -/
def d2 : DF := ⟨["i"], ["c"], fun _ _ => false⟩

/-- Oracle for the environment-sharing run: the first generated code
binds `close`, `entries`, `exits` (all `d1`) and the simulation then
fails; the second generated code binds only `entries` (to `d2`), so its
validation can only pass through bindings left over from attempt 1.  The
simulation succeeds exactly when `entries` is `d2`. -/
def O5 : Oracle where
  csvSymbols := []
  download := fun _ _ _ => .vother
  genCode := fun i _ => if i = 0 then "CODE1" else "CODE2"
  execRes := fun code env =>
    if code = "CODE1" then
      (("close", .vdf d1) :: ("entries", .vdf d1) :: ("exits", .vdf d1) :: env, none)
    else if code = "CODE2" then
      (("entries", .vdf d2) :: env, none)
    else (env, some "unexpected code")
  fallbackExec := fun env => (env, some "fallback disabled")
  fromSignals := fun _ e _ =>
    if e.data "i" "c" then .error "simulated portfolio failure" else .ok 42

/-- A 2 x 2 close table. -/
def c3df : DF := ⟨["r0", "r1"], ["c0", "c1"], fun _ _ => false⟩

/-- A 1 x 1 entries table (shape-mismatched against `c3df`). -/
def e3df : DF := ⟨["r0"], ["c0"], fun _ _ => true⟩

/-- A 1 x 1 exits table (shape-mismatched against `c3df`). -/
def x3df : DF := ⟨["r0"], ["c0"], fun _ _ => true⟩

/-- A post-execution environment binding the three required names. -/
def env3 : Env := [("close", .vdf c3df), ("entries", .vdf e3df), ("exits", .vdf x3df)]

/-- An 11-row, 2-column close table with distinct row labels. -/
def close11 : DF :=
  ⟨["r0", "r1", "r2", "r3", "r4", "r5", "r6", "r7", "r8", "r9", "r10"],
   ["A", "B"], fun _ _ => false⟩

/-- An adversarial fault message matching the shape rule and also the
indexing and syntax rules of the classifier. -/
def advMsg : String :=
  "shape doesn" ++ apos ++ "t match KeyError None of SyntaxError"

/- ------------------------------------------------------------------
Helper lemmas.
------------------------------------------------------------------ -/

theorem splitCh_ne_nil (c : Char) (l : List Char) : splitCh c l ≠ [] := by
  cases l with
  | nil => simp [splitCh]
  | cons x xs =>
    simp only [splitCh]
    cases h : splitCh c xs with
    | nil => simp
    | cons hd tl => by_cases hx : x = c <;> simp [hx]

theorem joinCh_cons_cons (c : Char) (x : Char) (hd : List Char) (tl : List (List Char)) :
    joinCh c ((x :: hd) :: tl) = x :: joinCh c (hd :: tl) := by
  cases tl <;> simp [joinCh]

theorem joinCh_splitCh (c : Char) (l : List Char) : joinCh c (splitCh c l) = l := by
  induction l with
  | nil => rfl
  | cons x xs ih =>
    simp only [splitCh]
    cases h : splitCh c xs with
    | nil => exact absurd h (splitCh_ne_nil c xs)
    | cons hd tl =>
      rw [h] at ih
      by_cases hx : x = c
      · subst hx
        simp [joinCh, ih]
      · simp only [if_neg hx]
        rw [joinCh_cons_cons, ih]

theorem pyFencePython_prefix_false {l : List Char}
    (hp : pyFence.isPrefixOf l = false) : pyFencePython.isPrefixOf l = false := by
  by_contra h
  have h1 : pyFencePython <+: l :=
    List.isPrefixOf_iff_prefix.mp (by simpa using h)
  have h2 : pyFence <+: pyFencePython := by decide
  simp [List.isPrefixOf_iff_prefix.mpr (h2.trans h1)] at hp

theorem cleanL_of_clean (l : List Char)
    (hp : pyFence.isPrefixOf l = false)
    (hs : pyFence.isSuffixOf l = false)
    (hm : ∀ line ∈ splitCh '\n' l, markerHit line = false) :
    cleanL l = stripL l := by
  have hp9 := pyFencePython_prefix_false hp
  have ht : (splitCh '\n' l).takeWhile (fun line => !markerHit line) = splitCh '\n' l :=
    List.takeWhile_eq_self_iff.mpr (fun x hx => by simp [hm x hx])
  simp only [cleanL, hp9, hp, hs, Bool.false_eq_true, if_false, ht, joinCh_splitCh]

theorem sum_map_ite (k : Nat) (p : String → Bool) :
    ∀ l : List String, (l.map (fun r => if p r then k else 0)).sum = k * l.countP p := by
  intro l
  induction l with
  | nil => simp
  | cons a t ih =>
    by_cases h : p a = true
    · simp [h, List.countP_cons, ih, Nat.mul_succ, Nat.add_comm]
    · have h' : p a = false := by simpa using h
      simp [h', List.countP_cons, ih]

theorem trueCellCount_fallbackEntries (close : DF) (h10 : 10 < close.index.length)
    (hnd : close.index.Nodup) :
    trueCellCount (fallbackEntriesDF close) = close.columns.length := by
  obtain ⟨a, ha⟩ : ∃ a, close.index[10]? = some a := by
    rw [List.getElem?_eq_getElem h10]; exact ⟨_, rfl⟩
  have hfilter : ∀ r : String,
      (close.columns.filter (fun _ => decide (close.index[10]? = some r))).length =
      if decide (close.index[10]? = some r) then close.columns.length else 0 := by
    intro r
    by_cases h : close.index[10]? = some r <;> simp [h]
  unfold trueCellCount fallbackEntriesDF
  simp only [hfilter]
  rw [sum_map_ite]
  have hcong : close.index.countP (fun r => decide (close.index[10]? = some r)) =
      close.index.countP (fun x => x == a) := by
    refine List.countP_congr (fun x _ => ?_)
    rw [ha]
    by_cases hxa : a = x
    · subst hxa; simp
    · simp [hxa, Ne.symm hxa]
  have hamem : a ∈ close.index := by
    obtain ⟨hl, rfl⟩ := List.getElem?_eq_some_iff.mp ha
    exact List.getElem_mem hl
  rw [hcong, ← List.count_eq_countP, List.count_eq_one_of_mem hnd hamem, Nat.mul_one]

theorem trueCellCount_fallbackExits (close : DF) :
    trueCellCount (fallbackExitsDF close) = 0 := by
  unfold trueCellCount fallbackExitsDF
  induction close.index with
  | nil => simp
  | cons r t ih => simp [ih]

theorem loopAux_budget (O : Oracle) (up : String) (maxR : Nat) :
    ∀ r code_str last_error env calls,
      (loopAux O up maxR r code_str last_error env calls).genCalls ≤ calls + r ∧
      ((loopAux O up maxR r code_str last_error env calls).fallbackRan = true →
        (loopAux O up maxR r code_str last_error env calls).genCalls = calls + r) := by
  intro r
  induction r with
  | zero =>
    intro code_str last_error env calls
    simp [loopAux]
  | succ r ih =>
    intro code_str last_error env calls
    simp only [loopAux]
    split
    · constructor
      · simp
      · intro h; simp at h
    · split
      · rename_i hr0
        subst hr0
        split
        · exact ⟨by simp, fun _ => by simp⟩
        · exact ⟨by simp, fun _ => by simp⟩
      · constructor
        · exact Nat.le_trans (ih _ _ _ _).1 (by omega)
        · intro hf
          have h2 := (ih _ _ _ _).2 hf
          omega

/- ------------------------------------------------------------------
Claim theorems.
------------------------------------------------------------------ -/

/-- C1: for every `max_retries` of at least 1, `auto_backtest` makes at
most `max_retries` generation (chat completion) calls, whatever the LLM,
`exec`, the data fetch and the simulation do; and when the fallback
strategy path runs, the run made exactly `max_retries` generation calls,
i.e. the fallback is reached only inside the failure branch of the final
iteration (each iteration makes exactly one generation call by
construction of `loopAux`). -/
theorem c1_retry_budget (O : Oracle) (user_prompt : String) (tickers : List String)
    (period interval : String) (max_retries : Nat) (hmr : 1 ≤ max_retries) :
    (autoBacktest O user_prompt tickers period interval max_retries).genCalls ≤ max_retries ∧
    ((autoBacktest O user_prompt tickers period interval max_retries).fallbackRan = true →
      (autoBacktest O user_prompt tickers period interval max_retries).genCalls = max_retries) := by
  have h := loopAux_budget O user_prompt max_retries max_retries none ""
    [("raw", O.download (normalizeTickers O.csvSymbols) period interval)] 0
  simpa [autoBacktest] using h

/-- Witness for C1 at a concrete oracle and `max_retries = 1`. -/
theorem c1_retry_budget_witness :
    (autoBacktest Ofail "momentum" [] "24mo" "1d" 1).genCalls ≤ 1 ∧
    ((autoBacktest Ofail "momentum" [] "24mo" "1d" 1).fallbackRan = true →
      (autoBacktest Ofail "momentum" [] "24mo" "1d" 1).genCalls = 1) :=
  c1_retry_budget Ofail "momentum" [] "24mo" "1d" 1 (by decide)

/-- C4: the classifier checks its rules in fixed order with first match
winning: any message containing both the shape word and the does-not-match
phrase is given
the shape-mismatch reindex hint regardless of which later rules it also
matches, and a message matching no rule falls through to the catch-all
that passes the raw message through. -/
theorem c4_classifier_priority (s : String) :
    ((pyIn "shape" s && pyIn doesntMatchPat s) = true →
      classify s = shapeMismatchMsg s) ∧
    ((pyIn "shape" s && pyIn doesntMatchPat s) = false →
      (pyIn "KeyError" s && pyIn "None of" s) = false →
      (pyIn "YFPricesMissingError" s || pyIn "No data found" s) = false →
      pyIn "SyntaxError" s = false →
      classify s = "Error: " ++ s) := by
  constructor
  · intro h
    simp [classify, h]
  · intro h1 h2 h3 h4
    simp [classify, h1, h2, h3, h4]

/-- Witness for C4: an adversarial message matching the shape rule and
also the indexing and syntax rules is classified by the first rule, and a
message matching no rule is passed through raw. -/
theorem c4_classifier_priority_witness :
    classify advMsg = shapeMismatchMsg advMsg ∧
    classify "hello" = "Error: " ++ "hello" :=
  ⟨(c4_classifier_priority advMsg).1 (by decide),
   (c4_classifier_priority "hello").2 (by decide) (by decide) (by decide) (by decide)⟩

/-- C6 counterexample: the namespace of the first `exec` call is not
exactly the declared allow-list — it also contains the `__builtins__`
binding (the full Python builtins, granting `open`, `__import__` and so
every ambient filesystem/process capability), which the allow-list does
not contain. -/
theorem c6_namespace_counterexample :
    "__builtins__" ∈ exec_namespace_names ∧ "__builtins__" ∉ declared_allow_list := by
  decide

/-- C6 amended: the namespace of the first `exec` call holds exactly the
declared allow-list plus the `__builtins__` binding. -/
theorem c6_namespace_amended :
    exec_namespace_names.Perm ("__builtins__" :: declared_allow_list) := by
  decide

/-- C8 counterexample: on the quoted input the sanitizer does not return
`entries = x`. -/
theorem c8_sanitizer_counterexample :
    cleanS "```python\nentries = x\n```\nThis code buys low." ≠ "entries = x" := by
  decide

/-- C8 amended: on the quoted input the sanitizer returns
`entries = x` followed by a newline and the leftover closing fence line:
because prose follows the closing fence, the fence is not a suffix of the
whole string, so the endswith check misses it and the line filter keeps
it. -/
theorem c8_sanitizer_amended :
    cleanS "```python\nentries = x\n```\nThis code buys low." = "entries = x\n```" := by
  decide

/-- C9 counterexample: the input consisting of a space followed by a
fenced fragment is inside the scope of the claim (it does not start or
end with a fence marker and no line holds an explanation marker), and the
sanitizer is not idempotent on it: the first pass only trims the space,
which exposes the fence, and the second pass then strips the fence. -/
theorem c9_sanitizer_counterexample :
    pyFence.isPrefixOf (" ```x").data = false ∧
    pyFence.isSuffixOf (" ```x").data = false ∧
    (splitCh '\n' (" ```x").data).all (fun line => !markerHit line) = true ∧
    cleanS " ```x" = "```x" ∧
    cleanS (cleanS " ```x") = "x" ∧
    cleanS (cleanS " ```x") ≠ cleanS " ```x" := by
  decide

/-- C9 amended: on input that does not start or end with a fence marker
and no line of which holds an explanation marker, the sanitizer returns
the input with surrounding whitespace trimmed; when the input carries no
surrounding whitespace (so trimming cannot expose a fence marker),
applying the sanitizer twice equals applying it once. -/
theorem c9_sanitizer_amended (s : String)
    (hp : pyFence.isPrefixOf s.data = false)
    (hs : pyFence.isSuffixOf s.data = false)
    (hm : ∀ line ∈ splitCh '\n' s.data, markerHit line = false) :
    cleanS s = ⟨stripL s.data⟩ ∧
    (stripL s.data = s.data → cleanS (cleanS s) = cleanS s) := by
  have key : cleanL s.data = stripL s.data := cleanL_of_clean s.data hp hs hm
  constructor
  · show (⟨cleanL s.data⟩ : String) = ⟨stripL s.data⟩
    rw [key]
  · intro ht
    have h1 : cleanS s = s := by
      show (⟨cleanL s.data⟩ : String) = s
      rw [key, ht]
    rw [h1]
    exact h1

/-- Witness for C9 amended at a concrete clean input. -/
theorem c9_sanitizer_amended_witness :
    cleanS "a = 1" = ⟨stripL ("a = 1").data⟩ ∧
    cleanS (cleanS "a = 1") = cleanS "a = 1" :=
  ⟨(c9_sanitizer_amended "a = 1" (by decide) (by decide) (by decide)).1,
   (c9_sanitizer_amended "a = 1" (by decide) (by decide) (by decide)).2 (by decide)⟩

/-- C10: the result of `auto_backtest` does not depend on its `tickers`
parameter, because the function rebinds `tickers` from the CSV symbol
list before any use; with every external response held equal, any two
ticker arguments give the same run. -/
theorem c10_tickers_ignored (O : Oracle) (user_prompt : String) (t1 t2 : List String)
    (period interval : String) (max_retries : Nat) :
    autoBacktest O user_prompt t1 period interval max_retries =
    autoBacktest O user_prompt t2 period interval max_retries := rfl

/-- C3: on a post-execution environment binding `close`, `entries` and
`exits`, all DataFrames, validation never fails; each signal table ends
up with exactly the shape of `close`; and a table whose shape differed
from the shape of `close` is reindexed so that it carries exactly the
index and columns of `close`, keeps every cell at a label pair present in
the original, and is false at every other label pair. -/
theorem c3_shape_reconciliation (env : Env) (c e x : DF)
    (hc : List.lookup "close" env = some (.vdf c))
    (he : List.lookup "entries" env = some (.vdf e))
    (hx : List.lookup "exits" env = some (.vdf x)) :
    validateTriple env = .ok (c, fixSignal c e, fixSignal c x) ∧
    shape (fixSignal c e) = shape c ∧
    shape (fixSignal c x) = shape c ∧
    (shape e ≠ shape c →
      (fixSignal c e).index = c.index ∧ (fixSignal c e).columns = c.columns ∧
      (∀ r cc, r ∈ e.index → cc ∈ e.columns → (fixSignal c e).data r cc = e.data r cc) ∧
      (∀ r cc, ¬(r ∈ e.index ∧ cc ∈ e.columns) → (fixSignal c e).data r cc = false)) ∧
    (shape x ≠ shape c →
      (fixSignal c x).index = c.index ∧ (fixSignal c x).columns = c.columns ∧
      (∀ r cc, r ∈ x.index → cc ∈ x.columns → (fixSignal c x).data r cc = x.data r cc) ∧
      (∀ r cc, ¬(r ∈ x.index ∧ cc ∈ x.columns) → (fixSignal c x).data r cc = false)) := by
  have hmain : ∀ t : DF, shape (fixSignal c t) = shape c ∧
      (shape t ≠ shape c →
        (fixSignal c t).index = c.index ∧ (fixSignal c t).columns = c.columns ∧
        (∀ r cc, r ∈ t.index → cc ∈ t.columns → (fixSignal c t).data r cc = t.data r cc) ∧
        (∀ r cc, ¬(r ∈ t.index ∧ cc ∈ t.columns) → (fixSignal c t).data r cc = false)) := by
    intro t
    by_cases hsh : shape t = shape c
    · refine ⟨by simp [fixSignal, hsh], fun hne => absurd hsh hne⟩
    · have hfix : fixSignal c t = reindexDF t c.index c.columns false := by
        simp [fixSignal, hsh]
      refine ⟨?_, fun _ => ⟨by rw [hfix]; rfl, by rw [hfix]; rfl, ?_, ?_⟩⟩
      · rw [hfix]; rfl
      · intro r cc hr hcc
        rw [hfix]
        simp [reindexDF, hr, hcc]
      · intro r cc hnot
        rw [hfix]
        simp only [reindexDF]
        rw [if_neg hnot]
  refine ⟨by simp [validateTriple, hc, he, hx], (hmain e).1, (hmain x).1, (hmain e).2, (hmain x).2⟩

/-- Witness for C3 on a concrete environment with a 2 x 2 close table and
1 x 1 signal tables. -/
theorem c3_shape_reconciliation_witness :
    validateTriple env3 = .ok (c3df, fixSignal c3df e3df, fixSignal c3df x3df) ∧
    shape (fixSignal c3df e3df) = shape c3df ∧
    (fixSignal c3df e3df).index = c3df.index ∧
    (fixSignal c3df e3df).columns = c3df.columns ∧
    (fixSignal c3df e3df).data "r0" "c0" = e3df.data "r0" "c0" ∧
    (fixSignal c3df e3df).data "r1" "c1" = false := by
  have h := c3_shape_reconciliation env3 c3df e3df x3df rfl rfl rfl
  have hm : shape e3df ≠ shape c3df := by decide
  exact ⟨h.1, h.2.1, (h.2.2.2.1 hm).1, (h.2.2.2.1 hm).2.1,
    (h.2.2.2.1 hm).2.2.1 "r0" "c0" (by decide) (by decide),
    (h.2.2.2.1 hm).2.2.2 "r1" "c1" (by decide)⟩

/-- C2: when the attempt of the final iteration raises any fault `f`
(from `exec`, the validation checks or the simulation call), the loop
does not fail immediately: the fallback path runs, its success is
returned, and only when it fails does the loop raise the
exhausted-retries error, whose message embeds the classified
(hint-augmented) message of `f`, not the fault of the fallback itself.
Stated on `loopAux` with one remaining iteration and an arbitrary
incoming loop state, which covers every reachable final attempt. -/
theorem c2_final_attempt_fallback (O : Oracle) (up : String) (max_retries : Nat)
    (code_str : Option String) (last_error : String) (env : Env) (calls : Nat) (f : String)
    (hfault : (runAttempt O env (cleanS (O.genCode calls
        (promptFor up code_str last_error max_retries)))).2 = Except.error f) :
    (loopAux O up max_retries 1 code_str last_error env calls).fallbackRan = true ∧
    (∀ p, fallbackPath O (runAttempt O env (cleanS (O.genCode calls
        (promptFor up code_str last_error max_retries)))).1 = .ok p →
      loopAux O up max_retries 1 code_str last_error env calls = ⟨.pf p, calls + 1, true⟩) ∧
    (∀ m, fallbackPath O (runAttempt O env (cleanS (O.genCode calls
        (promptFor up code_str last_error max_retries)))).1 = .error m →
      loopAux O up max_retries 1 code_str last_error env calls
        = ⟨.raised (exhaustedMsg max_retries (classify f)), calls + 1, true⟩) := by
  refine ⟨?_, ?_, ?_⟩
  · simp only [loopAux, Nat.sub_zero, hfault]
    rw [if_pos (by trivial)]
    split <;> rfl
  · intro p hp
    simp only [loopAux, Nat.sub_zero, hfault, hp]
    rw [if_pos (by trivial)]
  · intro m hm
    simp only [loopAux, Nat.sub_zero, hfault, hm]
    rw [if_pos (by trivial)]

/-- Witness for C2 at an oracle whose final attempt raises `boom` and
whose fallback also fails: the raised message is the exhausted-retries
error around the classified final-attempt fault. -/
theorem c2_final_attempt_fallback_witness :
    (loopAux Ofail "u" 3 1 none "" [] 0).fallbackRan = true ∧
    loopAux Ofail "u" 3 1 none "" [] 0
      = ⟨.raised (exhaustedMsg 3 (classify "boom")), 1, true⟩ :=
  ⟨(c2_final_attempt_fallback Ofail "u" 3 none "" [] 0 "boom" rfl).1,
   (c2_final_attempt_fallback Ofail "u" 3 none "" [] 0 "boom" rfl).2.2 "fallback broke" rfl⟩

/-- C5 counterexample: the binding environment is not discarded between
attempts.  With oracle `O5`, attempt 1 binds `close`, `entries`, `exits`
and then fails in the simulation; the code of attempt 2 binds only `entries`
(second conjunct: its execution adds no `close` binding), and the run
starts with no `close` binding (third conjunct); yet the whole run
succeeds at attempt 2 (two generation calls, no fallback), which requires
the required-name check of attempt 2 to be satisfied by the `close` and
`exits` bindings left over from failed attempt 1 — contradicting the
claim that leftover bindings cannot satisfy the check. -/
theorem c5_env_counterexample :
    autoBacktest O5 "u" [] "24mo" "1d" 2 = ⟨.pf 42, 2, false⟩ ∧
    (List.lookup "close" (O5.execRes "CODE2" [("raw", Value.vother)]).1).isNone = true ∧
    (List.lookup "close" ([("raw", Value.vother)] : Env)).isNone = true := by
  refine ⟨by decide, by decide, by decide⟩

/-- C5 amended: the environment is created once and shared: whenever a
attempt of a non-final iteration faults, the next iteration receives the
post-execution environment of the faulting attempt unchanged (carrying
every binding the failed attempt made), together with the carried-forward
code text and classified error. -/
theorem c5_env_shared_amended (O : Oracle) (up : String) (max_retries r : Nat)
    (code_str : Option String) (last_error : String) (env : Env) (calls : Nat) (e : String)
    (hfault : (runAttempt O env (cleanS (O.genCode calls
        (promptFor up code_str last_error (max_retries - (r + 1)))))).2 = Except.error e) :
    loopAux O up max_retries (r + 2) code_str last_error env calls =
      loopAux O up max_retries (r + 1)
        (some (cleanS (O.genCode calls
          (promptFor up code_str last_error (max_retries - (r + 1))))))
        (classify e)
        ((runAttempt O env (cleanS (O.genCode calls
            (promptFor up code_str last_error (max_retries - (r + 1)))))).1)
        (calls + 1) := by
  simp only [loopAux, hfault]
  rw [if_neg (by omega : ¬(r + 1 = 0))]

/-- Witness for C5 amended: with oracle `O5`, the first iteration of a
two-iteration run hands the second iteration the environment mutated by
attempt 1. -/
theorem c5_env_shared_amended_witness :
    loopAux O5 "u" 2 2 none "" [("raw", Value.vother)] 0 =
      loopAux O5 "u" 2 1
        (some (cleanS (O5.genCode 0 (promptFor "u" none "" (2 - (0 + 1))))))
        (classify "simulated portfolio failure")
        ((runAttempt O5 [("raw", Value.vother)] (cleanS (O5.genCode 0
            (promptFor "u" none "" (2 - (0 + 1)))))).1)
        1 :=
  c5_env_shared_amended O5 "u" 2 0 none "" [("raw", Value.vother)] 0
    "simulated portfolio failure" rfl

/-- C7 counterexample: on an 11-row, 2-column close table (inside the
scope of the claim: at least 11 rows, at least 1 column, distinct dates),
the fallback `entries` table holds 2 true cells — one per column, the
whole row at position 10 — not exactly one. -/
theorem c7_fallback_counterexample :
    10 < close11.index.length ∧ 0 < close11.columns.length ∧ close11.index.Nodup ∧
    trueCellCount (fallbackEntriesDF close11) = 2 ∧ (2 : Nat) ≠ 1 := by
  decide

/-- C7 amended: on a price table with at least 11 distinct-labelled rows,
the fallback strategy yields signal tables with exactly the index and
columns (hence shape) of `close`; `entries` holds exactly one true row —
the row at position 10, one true cell per column, so
`close.columns.length` true cells in total — and `exits` holds none. -/
theorem c7_fallback_amended (close : DF) (h10 : 10 < close.index.length)
    (hnd : close.index.Nodup) (hcols : 0 < close.columns.length) :
    fallbackSignals close = some (fallbackEntriesDF close, fallbackExitsDF close) ∧
    (fallbackEntriesDF close).index = close.index ∧
    (fallbackEntriesDF close).columns = close.columns ∧
    (fallbackExitsDF close).index = close.index ∧
    (fallbackExitsDF close).columns = close.columns ∧
    trueCellCount (fallbackEntriesDF close) = close.columns.length ∧
    trueCellCount (fallbackExitsDF close) = 0 :=
  ⟨by simp [fallbackSignals, h10], rfl, rfl, rfl, rfl,
    trueCellCount_fallbackEntries close h10 hnd, trueCellCount_fallbackExits close⟩

/-- Witness for C7 amended at the concrete 11 x 2 table. -/
theorem c7_fallback_amended_witness :
    fallbackSignals close11 = some (fallbackEntriesDF close11, fallbackExitsDF close11) ∧
    (fallbackEntriesDF close11).index = close11.index ∧
    (fallbackEntriesDF close11).columns = close11.columns ∧
    (fallbackExitsDF close11).index = close11.index ∧
    (fallbackExitsDF close11).columns = close11.columns ∧
    trueCellCount (fallbackEntriesDF close11) = close11.columns.length ∧
    trueCellCount (fallbackExitsDF close11) = 0 :=
  c7_fallback_amended close11 (by decide) (by decide) (by decide)
